import Mathlib

/-!
Shallow embedding of the homework-status Telegram poller
(`homework.py` together with its exception classes in `exceptions.py`).

The poll loop's body (`main`, the `while True` block) is modelled as a pure
step function `main_iter` over an explicit `LoopState`; the outcome of the
external HTTP fetch and of the notification-send capability for one
iteration are inputs of the step (`IterInput`), so every possible behaviour
of the collaborators is quantified over.  Python exceptions become the
`HWError` error channel of `Except`; a stage that raises is a stage that
returns `Except.error`.
-/

namespace HomeworkBot

/-- The Python exceptions the program can raise inside one loop iteration:
the built-ins `TypeError`, `KeyError`, `ValueError`, `IndexError` and the
project's own classes from `exceptions.py`.  Each carries the message string
it was constructed with. -/
inductive HWError where
  | typeError (msg : String)
  | keyError (msg : String)
  | valueError (msg : String)
  | indexError (msg : String)
  | customStatusError (msg : String)
  | customNotListError (msg : String)
  | customTokenError (msg : String)
  | customEmptyListError (msg : String)
  | customAPINotAccessError (msg : String)
deriving DecidableEq, Repr

/-- A single-quote character, used to model Python string rendering of
`KeyError` arguments (written via its code point so the source stays
apostrophe-free). -/
def pyQuoteChar : String := String.singleton (Char.ofNat 39)

/-- Python renders `str(KeyError(m))` as the repr of the key, i.e. `m`
wrapped in single quotes; every other exception here renders as its bare
message. -/
def pyStrQuote (m : String) : String := pyQuoteChar ++ m ++ pyQuoteChar

/-- The text `str(error)` produces for each modelled exception, used by the
loop's `except` branch in `f-string` interpolation. -/
def errText : HWError → String
  | .typeError m => m
  | .keyError m => pyStrQuote m
  | .valueError m => m
  | .indexError m => m
  | .customStatusError m => m
  | .customNotListError m => m
  | .customTokenError m => m
  | .customEmptyListError m => m
  | .customAPINotAccessError m => m

/-- Discriminates `type(error) is exceptions.CustomEmptyListError`, the exact
type test on line 199 of `homework.py`. -/
def isEmptyListError : HWError → Bool
  | .customEmptyListError _ => true
  | _ => false

/-- One element of the `homeworks` list (an Item).  `homework.get(k)`
returns `None` both when the key is absent and when it maps to `None`, so
each field is an `Option`; a present-but-empty string is `some ""`. -/
structure Homework where
  homework_name : Option String
  status : Option String
  date_updated : Option String
deriving DecidableEq, Repr

/-- The value found under the key `"homeworks"`: either an actual Python
list of items, or a value of some other type (carrying its Python string
rendering, which the error message interpolates). -/
inductive HomeworksVal where
  | hwlist (items : List Homework)
  | notList (render : String)
deriving DecidableEq, Repr

/-- The decoded API response handed to `check_response`: a Python dict in
which the key `"homeworks"` is present (`dict (some v) render`) or absent
(`dict none render`), or a non-dict value.  `render` is the Python string
rendering of the whole object, interpolated into the empty-list message. -/
inductive Response where
  | dict (homeworks : Option HomeworksVal) (render : String)
  | notDict (render : String)
deriving DecidableEq, Repr

/-- Modelled from the spec: `settings.py` is not among the repository's
source files; §4.3 fixes `HOMEWORK_STATUSES` as a static three-entry
catalog (approved / reviewing / rejected → localized verdict text) and the
§8 scenario fixes the verdict text for `approved`.  The other two verdict
texts are representative; no theorem below depends on their exact words. -/
def HOMEWORK_STATUSES : List (String × String) :=
  [("approved", "Работа проверена: ревьюеру всё понравилось. Ура!"),
   ("reviewing", "Работа взята на проверку ревьюером."),
   ("rejected", "Работа проверена: у ревьюера есть замечания.")]

/-- Modelled from the spec: `settings.py` is missing; §6 fixes only that
there is one fixed endpoint URL.  Its exact text is irrelevant to every
theorem below (it only appears inside an error-message string). -/
def ENDPOINT : String := "https://practicum.yandex.ru/api/user_api/homework_statuses/"

/-- Modelled from the spec: `settings.py` is missing; §4.4 step 7 fixes only
that the sleep between iterations is one fixed retry interval.  The value is
irrelevant to every theorem below (they only use that both paths sleep the
same constant). -/
def RETRY_TIME : Nat := 600

/-- `check_response` (homework.py lines 80-101): validates the decoded
response and returns the list under `"homeworks"`.  Pure function of its
input — the Python original only reads `response` and builds new exception
objects, so the model's purity is faithful, not a simplification. -/
def check_response (response : Response) : Except HWError (List Homework) :=
  match response with
  | .notDict _ =>
      .error (.typeError "Данные не являются типом: словарь")
  | .dict none _ =>
      .error (.keyError "Ключ homeworks отсутствует.")
  | .dict (some (.notList render)) _ =>
      .error (.customNotListError ("Работы хранятся не в виде списка: " ++ render))
  | .dict (some (.hwlist [])) render =>
      .error (.customEmptyListError ("Список работ пуст: " ++ render))
  | .dict (some (.hwlist homeworks_list)) _ =>
      .ok homeworks_list

/-- `parse_status` (homework.py lines 104-119): extracts the formatted
status line for one homework.  Note the source tests `is None` after
`.get`, so a present-but-empty name or status passes those two tests; an
empty status string still fails at the catalog lookup. -/
def parse_status (homework : Homework) : Except HWError String :=
  match homework.homework_name with
  | none => .error (.keyError "Ключа homework_name не существует")
  | some homework_name =>
    match homework.status with
    | none => .error (.keyError "Ключа homework_status не существует")
    | some homework_status =>
      match HOMEWORK_STATUSES.lookup homework_status with
      | none => .error (.keyError ("Ключа " ++ homework_status ++ " не существует"))
      | some verdict =>
          .ok ("Изменился статус проверки работы \"" ++ homework_name ++ "\". " ++ verdict)

/-- `parse_date` (homework.py lines 122-134): `homework['date_updated']`
raises `KeyError('date_updated')` when the key is absent, re-raised with a
prefix (the `except ValueError` arm is dead code and is not modelled). -/
def parse_date (homework : Homework) : Except HWError String :=
  match homework.date_updated with
  | none => .error (.keyError ("Данных о дате не найдено: " ++ pyStrQuote "date_updated"))
  | some homework_date => .ok homework_date

/-- `check_message` (homework.py lines 137-141): `last_message != message`. -/
def check_message (message last_message : String) : Bool :=
  last_message != message

/-- Numeric value of a decimal digit character. -/
def dchar (c : Char) : Int := (c.toNat : Int) - 48

/-- Gregorian leap-year test, as `datetime` uses. -/
def is_leap (y : Int) : Bool :=
  (y % 4 == 0 && y % 100 != 0) || y % 400 == 0

/-- Length of a month, for `datetime`'s day-range validation. -/
def days_in_month (y mo : Int) : Int :=
  if mo = 2 then (if is_leap y then 29 else 28)
  else if mo = 4 ∨ mo = 6 ∨ mo = 9 ∨ mo = 11 then 30
  else 31

/-- Days from 1970-01-01 to the given civil date (standard era-based count;
for the 4-digit years accepted here every division has the operands that
make all integer-division conventions agree). -/
def days_from_civil (y mo d : Int) : Int :=
  let ys := if mo ≤ 2 then y - 1 else y
  let era := (if 0 ≤ ys then ys else ys - 399) / 400
  let yoe := ys - era * 400
  let mp := if 2 < mo then mo - 3 else mo + 9
  let doy := (153 * mp + 2) / 5 + d - 1
  let doe := yoe * 365 + yoe / 4 - yoe / 100 + doy
  era * 146097 + doe - 719468

/-- `convert_date` (homework.py lines 162-166):
`datetime.strptime(date, "%Y-%m-%dT%H:%M:%SZ").timestamp()` followed by the
caller's `int(...)`.  Modelled for a host whose local timezone is UTC (on
another host `.timestamp()` of the naive datetime shifts the result by a
constant offset, which no theorem below depends on); the value is an exact
integer, so `int` truncation is the identity.  A string that does not match
the fixed format, or whose fields are out of `datetime`'s ranges, raises
`ValueError` exactly as `strptime` does. -/
def convert_date (date : String) : Except HWError Int :=
  match date.data with
  | [y1, y2, y3, y4, ca, m1, m2, cb, d1, d2, cc,
     h1, h2, cd, n1, n2, ce, s1, s2, cf] =>
    if ca = '-' ∧ cb = '-' ∧ cc = 'T' ∧ cd = ':' ∧ ce = ':' ∧ cf = 'Z'
        ∧ y1.isDigit ∧ y2.isDigit ∧ y3.isDigit ∧ y4.isDigit
        ∧ m1.isDigit ∧ m2.isDigit ∧ d1.isDigit ∧ d2.isDigit
        ∧ h1.isDigit ∧ h2.isDigit ∧ n1.isDigit ∧ n2.isDigit
        ∧ s1.isDigit ∧ s2.isDigit then
      let y := 1000 * dchar y1 + 100 * dchar y2 + 10 * dchar y3 + dchar y4
      let mo := 10 * dchar m1 + dchar m2
      let da := 10 * dchar d1 + dchar d2
      let ho := 10 * dchar h1 + dchar h2
      let mi := 10 * dchar n1 + dchar n2
      let se := 10 * dchar s1 + dchar s2
      if 1 ≤ y ∧ 1 ≤ mo ∧ mo ≤ 12 ∧ 1 ≤ da ∧ da ≤ days_in_month y mo
          ∧ ho ≤ 23 ∧ mi ≤ 59 ∧ se ≤ 59 then
        .ok (days_from_civil y mo da * 86400 + ho * 3600 + mi * 60 + se)
      else
        .error (.valueError ("time data " ++ date ++ " is out of range for format %Y-%m-%dT%H:%M:%SZ"))
    else
      .error (.valueError ("time data " ++ date ++ " does not match format %Y-%m-%dT%H:%M:%SZ"))
  | _ =>
      .error (.valueError ("time data " ++ date ++ " does not match format %Y-%m-%dT%H:%M:%SZ"))

/-- Severity of a logger call (`logger.info` / `logger.error`). -/
inductive LogLevel where
  | info
  | error
deriving DecidableEq, Repr

/-- What the external HTTP layer did for one call of `get_api_answer`:
either `requests.get` raised (carrying the rendering of the exception), or
it returned a response with a status code and a JSON-decoding outcome
(`Except.error` = `response.json()` raises `ValueError`). -/
inductive HttpOutcome where
  | raised (err : String)
  | returned (status_code : Nat) (json : Except String Response)

/-- `get_api_answer` (homework.py lines 48-77): wraps a transport failure as
`CustomAPINotAccessError`, a non-200 status as `CustomStatusError`, and a
JSON-decode failure as `ValueError`.  (The `try`/`except ValueError` around
the plain attribute read `response.status_code` is dead code and is not
modelled; the `current_timestamp or int(time.time())` default only matters
for a zero checkpoint and does not affect the returned response, which is
the only thing the loop observes.) -/
def get_api_answer (outcome : HttpOutcome) : Except HWError Response :=
  match outcome with
  | .raised err =>
      .error (.customAPINotAccessError ("Данные по этому адресу недоступны: " ++ err))
  | .returned status_code json =>
      if status_code ≠ 200 then
        .error (.customStatusError
          ("Ошибка при запросе к основному API " ++ ENDPOINT ++ ": " ++ toString status_code))
      else
        match json with
        | .error err => .error (.valueError ("Данные невозможно преобразовать в JSON: " ++ err))
        | .ok response => .ok response

/-- `send_message` (homework.py lines 34-45): wraps the message in the fixed
greeting template, calls the external send capability with the wrapped text
and logs; a raising send is caught and logged (at info severity, as the
source does), never re-raised.  Returns the text passed to the capability
together with the log entry. -/
def send_message (send : String → Except String Unit) (message : String) :
    String × (LogLevel × String) :=
  let text := "Привет, вот статус твоей работы: " ++ message ++ "."
  match send text with
  | .ok _ => (text, (LogLevel.info, "Отправлено сообщение."))
  | .error err => (text, (LogLevel.info, "Не удалось отправить сообщение: " ++ err))

/-- The loop's mutable state: `last_message` (NotificationState) and
`current_timestamp` (Checkpoint). -/
structure LoopState where
  last_message : String
  current_timestamp : Int
deriving DecidableEq, Repr

/-- The external world of one iteration: the HTTP outcome and the
notification-send capability (total over all of its possible behaviours). -/
structure IterInput where
  http : HttpOutcome
  send : String → Except String Unit

/-- Everything one iteration does: the state it leaves, the texts it passed
to the notification capability, its log entries, and how long it slept. -/
structure IterResult where
  state : LoopState
  sent : List String
  logs : List (LogLevel × String)
  slept : Nat
deriving Repr

/-- Stages 1-3 of one iteration (homework.py lines 186-189): fetch,
validate, parse the first item's status line, extract and convert its date.
`homeworks_list[0]` on an empty list would be Python's `IndexError`; that
branch is unreachable because `check_response` never returns `[]`, but it is
modelled rather than assumed away. -/
def poll_parse (inp : IterInput) : Except HWError (String × Int) := do
  let response ← get_api_answer inp.http
  let homeworks_list ← check_response response
  match homeworks_list with
  | [] => Except.error (HWError.indexError "list index out of range")
  | homework :: _ =>
      let status ← parse_status homework
      let date_str ← parse_date homework
      let date_updated ← convert_date date_str
      Except.ok (status, date_updated)

/-- Line 193 of homework.py: `current_timestamp = int(date_updated) or
current_timestamp` — Python `or` keeps the left operand unless it is falsy
(zero). -/
def advance_checkpoint (date_updated current_timestamp : Int) : Int :=
  if date_updated = 0 then current_timestamp else date_updated

/-- The `except Exception` branch of the loop (homework.py lines 196-206):
classify the error, dedup-and-send the failure message, update
`last_message` on send, log at the chosen severity, sleep. -/
def handle_error (send : String → Except String Unit) (error : HWError)
    (st : LoopState) : IterResult :=
  let flag_info := isEmptyListError error
  let message :=
    if flag_info then "На эту дату список работ пуст."
    else "Сбой в работе программы: " ++ errText error
  let step :=
    if check_message message st.last_message then
      let r := send_message send message
      ({ st with last_message := message }, [r.1], [r.2])
    else
      (st, ([] : List String), ([] : List (LogLevel × String)))
  { state := step.1,
    sent := step.2.1,
    logs := step.2.2 ++ [((if flag_info then LogLevel.info else LogLevel.error), message)],
    slept := RETRY_TIME }

/-- One full iteration of the `while True` loop (homework.py lines 184-206):
the `try` body on success (dedup, send, update `last_message`, advance the
checkpoint, sleep), the `except Exception` branch on any stage error. -/
def main_iter (inp : IterInput) (st : LoopState) : IterResult :=
  match poll_parse inp with
  | .ok (status, date_updated) =>
      if check_message status st.last_message then
        let r := send_message inp.send status
        { state := { last_message := status,
                     current_timestamp := advance_checkpoint date_updated st.current_timestamp },
          sent := [r.1],
          logs := [r.2],
          slept := RETRY_TIME }
      else
        { state := { st with
                     current_timestamp := advance_checkpoint date_updated st.current_timestamp },
          sent := [],
          logs := [],
          slept := RETRY_TIME }
  | .error e => handle_error inp.send e st

/-- Runs the loop body over a finite prefix of iterations, threading the
state. -/
def run_iters (inputs : List IterInput) (st : LoopState) : LoopState :=
  inputs.foldl (fun s inp => (main_iter inp s).state) st

/-- The integer timestamp an iteration parses, when all of its stages
succeed. -/
def parsed_ts (inp : IterInput) : Option Int :=
  match poll_parse inp with
  | .ok (_, date_updated) => some date_updated
  | .error _ => none

/-- The failure message the `except` branch builds for an error (the
candidate text it feeds to the dedup check). -/
def error_message (e : HWError) : String :=
  if isEmptyListError e then "На эту дату список работ пуст."
  else "Сбой в работе программы: " ++ errText e

/-- The candidate notification text of an iteration: the parsed status line
on the success path, the classified failure message on the error path.
This is the text the iteration compares against `last_message`. -/
def candidate (inp : IterInput) : String :=
  match poll_parse inp with
  | .ok (status, _) => status
  | .error e => error_message e

/-- The fixed greeting template `send_message` wraps every outgoing text in
(homework.py line 41). -/
def greet (message : String) : String :=
  "Привет, вот статус твоей работы: " ++ message ++ "."

/-! ### Concrete fixtures (used by witnesses and counterexamples) -/

/-- A well-formed item whose date field is the given string. -/
def sampleItem (d : String) : Homework :=
  { homework_name := some "hw", status := some "approved", date_updated := some d }

/-- An iteration whose fetch succeeds with a well-formed one-item response
and whose send capability succeeds. -/
def sampleInput (d : String) : IterInput :=
  { http := .returned 200 (.ok (.dict (some (.hwlist [sampleItem d])) "resp")),
    send := fun _ => .ok () }

/-- An iteration whose decoded response is not a mapping and whose send
capability raises. -/
def failingSendInput : IterInput :=
  { http := .returned 200 (.ok (.notDict "42")),
    send := fun _ => .error "network unreachable" }

/-- A start state with an empty `last_message` and checkpoint 100. -/
def startState : LoopState := { last_message := "", current_timestamp := 100 }

/-! ### Helper lemmas about the iteration step -/

/-- The text `send_message` hands to the capability is always the wrapped
message, whatever the capability then does. -/
theorem send_message_fst (send : String → Except String Unit) (m : String) :
    (send_message send m).1 = greet m := by
  rcases h : send ("Привет, вот статус твоей работы: " ++ m ++ ".") with _ | _ <;>
    simp [send_message, greet, h]

/-- `check_message m l = false` exactly when the texts coincide. -/
theorem check_message_false_iff (m l : String) :
    check_message m l = false ↔ l = m := by
  simp [check_message]

/-- The error branch sends the classified message exactly when it differs
from `last_message`, and then sends it wrapped. -/
theorem handle_error_sent (send : String → Except String Unit) (e : HWError)
    (st : LoopState) :
    (handle_error send e st).sent =
      if check_message (error_message e) st.last_message
      then [greet (error_message e)] else [] := by
  by_cases hm : check_message (error_message e) st.last_message <;>
    simp [handle_error, error_message, send_message_fst] at hm ⊢ <;>
    simp [hm]

/-- After the error branch, `last_message` holds the classified message
(it was either just assigned, or already equal). -/
theorem handle_error_last (send : String → Except String Unit) (e : HWError)
    (st : LoopState) :
    (handle_error send e st).state.last_message = error_message e := by
  by_cases hm : check_message (error_message e) st.last_message
  · simp [handle_error, error_message] at hm ⊢
    simp [hm]
  · rw [Bool.not_eq_true, check_message_false_iff] at hm
    simp [handle_error, error_message, check_message] at hm ⊢
    simp [hm]

/-- The error branch never touches the checkpoint. -/
theorem handle_error_ts (send : String → Except String Unit) (e : HWError)
    (st : LoopState) :
    (handle_error send e st).state.current_timestamp = st.current_timestamp := by
  by_cases hm : check_message (error_message e) st.last_message <;>
    simp [handle_error, error_message] at hm ⊢ <;> simp [hm]

/-- The error branch always ends in the fixed sleep. -/
theorem handle_error_slept (send : String → Except String Unit) (e : HWError)
    (st : LoopState) :
    (handle_error send e st).slept = RETRY_TIME := by
  simp [handle_error]

/-- An iteration's outgoing traffic: exactly one wrapped candidate message
when the candidate differs from `last_message`, nothing otherwise. -/
theorem main_iter_sent (inp : IterInput) (st : LoopState) :
    (main_iter inp st).sent =
      if check_message (candidate inp) st.last_message
      then [greet (candidate inp)] else [] := by
  cases hp : poll_parse inp with
  | ok p =>
      obtain ⟨status, date_updated⟩ := p
      have hc : candidate inp = status := by simp [candidate, hp]
      by_cases hm : check_message status st.last_message <;>
        simp [main_iter, hp, hc, hm, send_message_fst]
  | error e =>
      have hc : candidate inp = error_message e := by simp [candidate, hp]
      simp [main_iter, hp, hc, handle_error_sent]

/-- After any iteration, `last_message` equals the candidate text — either
it was just updated, or it was already equal (dedup case). -/
theorem main_iter_last (inp : IterInput) (st : LoopState) :
    (main_iter inp st).state.last_message = candidate inp := by
  cases hp : poll_parse inp with
  | ok p =>
      obtain ⟨status, date_updated⟩ := p
      have hc : candidate inp = status := by simp [candidate, hp]
      by_cases hm : check_message status st.last_message
      · simp [main_iter, hp, hc, hm]
      · rw [Bool.not_eq_true, check_message_false_iff] at hm
        simp [main_iter, hp, hc, check_message, hm]
  | error e =>
      have hc : candidate inp = error_message e := by simp [candidate, hp]
      simp [main_iter, hp, hc, handle_error_last]

/-- The checkpoint after any iteration: the parsed timestamp when the
iteration succeeded with a non-zero one, the prior value otherwise. -/
theorem main_iter_ts (inp : IterInput) (st : LoopState) :
    (main_iter inp st).state.current_timestamp =
      match parsed_ts inp with
      | some t => advance_checkpoint t st.current_timestamp
      | none => st.current_timestamp := by
  cases hp : poll_parse inp with
  | ok p =>
      obtain ⟨status, date_updated⟩ := p
      by_cases hm : check_message status st.last_message <;>
        simp [main_iter, hp, hm, parsed_ts]
  | error e =>
      simp [main_iter, hp, parsed_ts, handle_error_ts]

/-- Every iteration — success or error — ends in the fixed sleep. -/
theorem main_iter_slept (inp : IterInput) (st : LoopState) :
    (main_iter inp st).slept = RETRY_TIME := by
  cases hp : poll_parse inp with
  | ok p =>
      obtain ⟨status, date_updated⟩ := p
      by_cases hm : check_message status st.last_message <;>
        simp [main_iter, hp, hm]
  | error e =>
      simp [main_iter, hp, handle_error_slept]

/-- The greeting wrapper never returns its argument unchanged: it is
strictly longer. -/
theorem greet_ne (m : String) : greet m ≠ m := by
  intro h
  have hl := congrArg String.length h
  rw [greet, String.length_append, String.length_append] at hl
  have h1 : ("Привет, вот статус твоей работы: ").length = 33 := by decide
  have h2 : (".").length = 1 := by decide
  omega

/-- Over a run in which every iteration parses successfully and every parsed
timestamp is non-zero, the final checkpoint is the last parsed timestamp
(whatever state the run started from). -/
theorem run_iters_getLast (inputs : List IterInput) :
    ∀ (tss : List Int) (st : LoopState),
      List.Forall₂ (fun inp t => parsed_ts inp = some t) inputs tss →
      (∀ t ∈ tss, t ≠ 0) → ∀ (hne : tss ≠ []),
      (run_iters inputs st).current_timestamp = tss.getLast hne := by
  induction inputs with
  | nil =>
      intro tss st hpar hnz hne
      cases hpar
      exact absurd rfl hne
  | cons inp inputs ih =>
      intro tss st hpar hnz hne
      cases tss with
      | nil => cases hpar
      | cons t tss =>
          cases hpar with
          | cons hab htail =>
              cases tss with
              | nil =>
                  cases htail
                  have hstep : (main_iter inp st).state.current_timestamp = t := by
                    rw [main_iter_ts]
                    simp [hab, advance_checkpoint, hnz t (by simp)]
                  simpa [run_iters] using hstep
              | cons t2 tss =>
                  rw [List.getLast_cons (by simp)]
                  have htl := ih (t2 :: tss) (main_iter inp st).state htail
                    (fun x hx => hnz x (List.mem_cons_of_mem _ hx)) (by simp)
                  simpa [run_iters] using htl

/-! ### The claims -/

/-- C1: Deduplication invariant — in every iteration of the poll loop, on the
success path and the error-handling path alike, the send capability is
invoked exactly when the iteration's candidate text differs from the current
`last_message` (and then once, with that text wrapped); when the candidate
equals `last_message`, nothing is sent. -/
theorem notification_dedup_invariant (inp : IterInput) (st : LoopState) :
    ((main_iter inp st).sent =
      if check_message (candidate inp) st.last_message
      then [greet (candidate inp)] else []) ∧
    (candidate inp = st.last_message → (main_iter inp st).sent = []) := by
  refine ⟨main_iter_sent inp st, fun he => ?_⟩
  have hm : check_message (candidate inp) st.last_message = false := by
    rw [check_message_false_iff]
    exact he.symm
  simp [main_iter_sent inp st, hm]

/-- C2: Nothing escapes the loop — every iteration, whatever its stages did,
completes and ends in the fixed sleep; and whenever the fetch, validate or
parse stages raise any error (the soft empty-list condition included), the
iteration's entire outcome is the `except` branch applied to that error, so
no error propagates out of the loop body. -/
theorem loop_swallows_iteration_errors (inp : IterInput) (st : LoopState) :
    (main_iter inp st).slept = RETRY_TIME ∧
    (∀ e, poll_parse inp = Except.error e →
      main_iter inp st = handle_error inp.send e st) := by
  refine ⟨main_iter_slept inp st, fun e he => ?_⟩
  simp [main_iter, he]

/-- C3: Error classification in the recovery branch — for every caught
error, the branch logs the dedicated informational text at info severity
exactly when the error is `CustomEmptyListError` (matched by exact type),
and the generic failure text at error severity for every other error; the
dedup state afterwards holds that same classified text. -/
theorem error_branch_classification (send : String → Except String Unit)
    (e : HWError) (st : LoopState) :
    (handle_error send e st).logs.getLast? =
      some (if isEmptyListError e
            then (LogLevel.info, "На эту дату список работ пуст.")
            else (LogLevel.error, "Сбой в работе программы: " ++ errText e)) ∧
    (handle_error send e st).state.last_message =
      (if isEmptyListError e
       then "На эту дату список работ пуст."
       else "Сбой в работе программы: " ++ errText e) := by
  constructor
  · by_cases hm : check_message (error_message e) st.last_message <;>
      by_cases hie : isEmptyListError e <;>
      simp [handle_error, error_message, hie, hm]
  · exact handle_error_last send e st

/-- C4: Checkpoint advance rule — a successful iteration sets the checkpoint
to its parsed timestamp when that is non-zero and keeps the prior value when
it is zero; consequently, over a run of successful parses with strictly
increasing non-zero timestamps the checkpoint after the run equals the last
parsed timestamp. -/
theorem checkpoint_advance_rule (inputs : List IterInput) (tss : List Int)
    (st : LoopState)
    (hpar : List.Forall₂ (fun inp t => parsed_ts inp = some t) inputs tss)
    (hnz : ∀ t ∈ tss, t ≠ 0)
    (_hinc : tss.Chain' (· < ·))
    (hne : tss ≠ []) :
    (∀ (inp : IterInput) (s : LoopState) (t : Int), parsed_ts inp = some t →
        (main_iter inp s).state.current_timestamp =
          if t = 0 then s.current_timestamp else t) ∧
    (run_iters inputs st).current_timestamp = tss.getLast hne := by
  constructor
  · intro inp s t ht
    rw [main_iter_ts]
    simp [ht, advance_checkpoint]
  · exact run_iters_getLast inputs tss st hpar hnz hne

/-- Witness for C4: two concrete successful iterations with strictly
increasing non-zero timestamps leave the checkpoint at the second parsed
timestamp. -/
theorem checkpoint_advance_rule_witness :
    (run_iters [sampleInput "2023-01-01T00:00:00Z", sampleInput "2023-01-02T00:00:00Z"]
        startState).current_timestamp = 1672617600 :=
  (checkpoint_advance_rule _ [1672531200, 1672617600] startState
    (List.Forall₂.cons (by decide) (List.Forall₂.cons (by decide) List.Forall₂.nil))
    (by decide) (by simp [List.chain'_cons]) (by decide)).2

/-- C5 counterexample: a reachable iteration — a valid response whose first
item parses to the non-zero timestamp 50, smaller than the prior checkpoint
100 — makes the checkpoint strictly decrease, refuting "the Checkpoint value
after an iteration is greater than or equal to its value before". -/
theorem checkpoint_can_decrease :
    parsed_ts (sampleInput "1970-01-01T00:00:50Z") = some 50 ∧
    (main_iter (sampleInput "1970-01-01T00:00:50Z") startState).state.current_timestamp
      < startState.current_timestamp := by
  exact ⟨by decide, by decide⟩

/-- C5 (amended): the checkpoint after an iteration equals the prior value
when the iteration fails or its parsed timestamp is zero, and equals the
parsed timestamp — even when that is smaller than the prior value — when it
is non-zero; the checkpoint is therefore not monotone across iterations. -/
theorem checkpoint_update_characterization (inp : IterInput) (st : LoopState) :
    (main_iter inp st).state.current_timestamp =
      match parsed_ts inp with
      | some t => if t = 0 then st.current_timestamp else t
      | none => st.current_timestamp := by
  rw [main_iter_ts]
  cases parsed_ts inp <;> simp [advance_checkpoint]

/-- C6 counterexample: an item with a present but empty display name and a
known status code makes `parse_status` return a formatted line instead of
failing, refuting "display name absent or empty fails". -/
theorem parse_status_empty_name_ok :
    parse_status { homework_name := some "", status := some "approved", date_updated := none } =
      Except.ok "Изменился статус проверки работы \"\". Работа проверена: ревьюеру всё понравилось. Ура!" :=
  rfl

/-- C6 (amended): `parse_status` fails — always with a `KeyError`, the
code's realization of `MissingFieldError` — exactly when the display name is
absent, the status code is absent, or the status code has no catalog entry;
a present-but-empty display name does not fail (a present-but-empty status
code still fails, through the catalog lookup). -/
theorem parse_status_failure_characterization (homework : Homework) :
    ((∃ m, parse_status homework = Except.error (HWError.keyError m)) ↔
      (homework.homework_name = none ∨ homework.status = none ∨
        ∃ s, homework.status = some s ∧ HOMEWORK_STATUSES.lookup s = none)) ∧
    (∀ e, parse_status homework = Except.error e → ∃ m, e = HWError.keyError m) := by
  obtain ⟨hn, hs, hd⟩ := homework
  constructor
  · cases hn with
    | none => simp [parse_status]
    | some n =>
        cases hs with
        | none => simp [parse_status]
        | some v =>
            cases hl : HOMEWORK_STATUSES.lookup v with
            | none =>
                simp only [parse_status, hl]
                constructor
                · intro _
                  exact Or.inr (Or.inr ⟨v, rfl, hl⟩)
                · intro _
                  exact ⟨_, rfl⟩
            | some verdict =>
                simp only [parse_status, hl]
                constructor
                · rintro ⟨m, hm⟩
                  exact absurd hm (by simp)
                · rintro (h | h | ⟨s, hs, hnone⟩)
                  · exact Option.noConfusion h
                  · exact Option.noConfusion h
                  · obtain rfl : v = s := Option.some.inj hs
                    rw [hl] at hnone
                    exact Option.noConfusion hnone
  · intro e he
    cases hn with
    | none =>
        simp [parse_status] at he
        exact ⟨_, he.symm⟩
    | some n =>
        cases hs with
        | none =>
            simp [parse_status] at he
            exact ⟨_, he.symm⟩
        | some v =>
            cases hl : HOMEWORK_STATUSES.lookup v with
            | none =>
                simp [parse_status, hl] at he
                exact ⟨_, he.symm⟩
            | some verdict =>
                simp [parse_status, hl] at he

/-- C7: Validator error taxonomy — a non-mapping input fails with
`TypeError` (the spec's ShapeError), a mapping without the key `"homeworks"`
with `KeyError` (MissingKeyError), a `"homeworks"` value that is not a list
with `CustomNotListError`, and an empty list with `CustomEmptyListError`;
the input shapes are mutually exclusive and each matches the first violated
condition in the source's test order. -/
theorem check_response_error_taxonomy :
    (∀ render, check_response (Response.notDict render) =
        Except.error (HWError.typeError "Данные не являются типом: словарь")) ∧
    (∀ render, check_response (Response.dict none render) =
        Except.error (HWError.keyError "Ключ homeworks отсутствует.")) ∧
    (∀ render v, check_response (Response.dict (some (HomeworksVal.notList v)) render) =
        Except.error (HWError.customNotListError ("Работы хранятся не в виде списка: " ++ v))) ∧
    (∀ render, check_response (Response.dict (some (HomeworksVal.hwlist [])) render) =
        Except.error (HWError.customEmptyListError ("Список работ пуст: " ++ render))) :=
  ⟨fun _ => rfl, fun _ => rfl, fun _ _ => rfl, fun _ => rfl⟩

/-- C8: a mapping whose `"homeworks"` value is a non-empty list validates to
exactly that list, unchanged and in the same order; the model's
`check_response` is a pure function that returns the very list it was given
(the Python original only reads its input, so purity is faithful). -/
theorem check_response_returns_list_unchanged (homework : Homework)
    (rest : List Homework) (render : String) :
    check_response (Response.dict (some (HomeworksVal.hwlist (homework :: rest))) render) =
      Except.ok (homework :: rest) :=
  rfl

/-- C9: a raising send capability never aborts the iteration — the statement
quantifies over every `IterInput`, hence over every behaviour of the send
capability, a raising one included — the iteration still ends in the fixed
sleep, `last_message` is updated to the computed candidate text regardless
of delivery outcome, and a later iteration whose candidate is that same
text sends nothing further. -/
theorem delivery_failure_tolerated (inp : IterInput) (st : LoopState) :
    (main_iter inp st).slept = RETRY_TIME ∧
    (main_iter inp st).state.last_message = candidate inp ∧
    (∀ inp2, candidate inp2 = candidate inp →
      (main_iter inp2 (main_iter inp st).state).sent = []) := by
  refine ⟨main_iter_slept inp st, main_iter_last inp st, fun inp2 h2 => ?_⟩
  have hm : check_message (candidate inp2) (main_iter inp st).state.last_message = false := by
    rw [check_message_false_iff, main_iter_last, h2]
  simp [main_iter_sent, hm]

/-- C10: every text actually passed to the send capability is the candidate
message wrapped in the fixed greeting template, and therefore never equals
the bare status line or failure message used as the dedup key. -/
theorem sent_text_always_wrapped (inp : IterInput) (st : LoopState) (t : String)
    (ht : t ∈ (main_iter inp st).sent) :
    t = greet (candidate inp) ∧ t ≠ candidate inp := by
  rw [main_iter_sent] at ht
  by_cases hm : check_message (candidate inp) st.last_message
  · rw [if_pos hm] at ht
    simp at ht
    exact ⟨ht, ht ▸ greet_ne (candidate inp)⟩
  · rw [if_neg hm] at ht
    cases ht

/-- Witness for C10: a concrete iteration whose send capability raises; the
one text passed to it is the wrapped candidate and differs from the bare
candidate text. -/
theorem sent_text_always_wrapped_witness :
    "Привет, вот статус твоей работы: Сбой в работе программы: Данные не являются типом: словарь."
        = greet (candidate failingSendInput) ∧
    "Привет, вот статус твоей работы: Сбой в работе программы: Данные не являются типом: словарь."
        ≠ candidate failingSendInput :=
  sent_text_always_wrapped failingSendInput startState
    "Привет, вот статус твоей работы: Сбой в работе программы: Данные не являются типом: словарь."
    (by decide)

end HomeworkBot
